import Mathlib

/-!
Shallow embedding of the brute-force lockout engine from
app/brute_force_protection.py, and proofs about it.

Modelling choices:
- timestamps are integers (seconds); durations are naturals;
- a Python dict keyed by strings becomes an association list; defaultdict
  access is lookup-with-default followed by a write-back;
- the wall clock (time.time()) is passed explicitly as current_time to
  every operation that reads it; within one operation all reads of the
  clock see the same value;
- Python truthiness of an optional number (None and 0 are falsy, as in
  "if not status.locked_until") is modelled by pyTruthy.
-/

/-- A login attempt record, mirroring the LoginAttempt dataclass. -/
structure LoginAttempt where
  timestamp : Int
  success : Bool
  ip_address : String
  email : String
deriving Repr, DecidableEq

/-- Per-key lockout state, mirroring the LockoutStatus dataclass with its
field defaults. -/
structure LockoutStatus where
  failed_attempts : Nat := 0
  first_attempt_time : Option Int := none
  last_attempt_time : Option Int := none
  locked_until : Option Int := none
  lockout_count : Nat := 0
  attempts : List LoginAttempt := []
deriving Repr, DecidableEq

instance : Inhabited LockoutStatus := ⟨{}⟩

/-- Python truthiness of an optional number: None and 0 are falsy. -/
def pyTruthy : Option Int → Bool
  | none => false
  | some t => t != 0

/-- A Python dict from strings to lockout statuses, as an association list. -/
abbrev SMap := List (String × LockoutStatus)

/-- dict.get: the value stored at a key, if any. -/
def lookupS (m : SMap) (k : String) : Option LockoutStatus :=
  (m.find? (fun p => p.1 == k)).map (fun p => p.2)

/-- dict[k] = v: store a value at a key, replacing any previous one. -/
def updS (m : SMap) (k : String) (v : LockoutStatus) : SMap :=
  m.filter (fun p => p.1 != k) ++ [(k, v)]

/-- del dict[k]: drop the entry at a key. -/
def eraseS (m : SMap) (k : String) : SMap :=
  m.filter (fun p => p.1 != k)

/-- The BruteForceProtection object: configuration fields (with the
constructor defaults), the two keyed maps and the last-cleanup time. -/
structure BruteForceProtection where
  max_attempts : Nat := 5
  lockout_duration : Nat := 300
  exponential_backoff : Bool := true
  max_lockout_duration : Nat := 3600
  window_duration : Nat := 900
  cleanup_interval : Nat := 3600
  ip_attempts : SMap := []
  account_attempts : SMap := []
  last_cleanup : Int := 0
deriving Repr, DecidableEq

/-- The method _calculate_lockout_duration: flat duration without backoff or on the
first lockout, otherwise base times 2 to the lockout_count, capped. -/
def BruteForceProtection._calculate_lockout_duration
    (self : BruteForceProtection) (lockout_count : Nat) : Nat :=
  if !self.exponential_backoff || lockout_count == 0 then
    self.lockout_duration
  else
    min (self.lockout_duration * 2 ^ lockout_count) self.max_lockout_duration

/-- The method _prune_old_attempts: drop history entries at or before the window
cutoff and recompute failed_attempts from what remains. -/
def BruteForceProtection._prune_old_attempts
    (self : BruteForceProtection) (current_time : Int)
    (status : LockoutStatus) : LockoutStatus :=
  let cutoff_time : Int := current_time - (self.window_duration : Int)
  let kept := status.attempts.filter (fun a => cutoff_time < a.timestamp)
  { status with
    attempts := kept
    failed_attempts := (kept.filter (fun a => !a.success)).length }

/-- max(a.timestamp for a in attempts); only meaningful on nonempty lists,
which is how the source guards its use. -/
def maxTimestamp : List LoginAttempt → Int
  | [] => 0
  | a :: rest => rest.foldl (fun acc b => max acc b.timestamp) a.timestamp

/-- The removal test of _cleanup_old_data for one entry: the Python
condition status.locked_until and status.locked_until < current_time and
(not status.attempts or max(timestamps) < cutoff_time). -/
def removeEligible (current_time cutoff_time : Int) (status : LockoutStatus) : Bool :=
  pyTruthy status.locked_until && status.locked_until.getD 0 < current_time &&
    (status.attempts.isEmpty || maxTimestamp status.attempts < cutoff_time)

/-- The method _cleanup_old_data: amortized sweep of both maps, a no-op unless
cleanup_interval has elapsed since the last sweep. -/
def BruteForceProtection._cleanup_old_data
    (self : BruteForceProtection) (current_time : Int) : BruteForceProtection :=
  if current_time - self.last_cleanup < (self.cleanup_interval : Int) then self
  else
    let cutoff_time : Int := current_time - (self.window_duration : Int)
    { self with
      ip_attempts :=
        self.ip_attempts.filter (fun p => !removeEligible current_time cutoff_time p.2)
      account_attempts :=
        self.account_attempts.filter (fun p => !removeEligible current_time cutoff_time p.2)
      last_cleanup := current_time }

/-- is_ip_locked: cleanup, then look the IP up; absent or falsy
locked_until means unlocked; a future locked_until reports the remaining
seconds; a lapsed one is cleared in place (lazy expiry). Returns the
mutated object together with the (is_locked, seconds_remaining) pair. -/
def BruteForceProtection.is_ip_locked
    (self : BruteForceProtection) (ip_address : String) (current_time : Int) :
    BruteForceProtection × Bool × Option Int :=
  let self1 := self._cleanup_old_data current_time
  match lookupS self1.ip_attempts ip_address with
  | none => (self1, false, none)
  | some status =>
    if !pyTruthy status.locked_until then (self1, false, none)
    else if current_time < status.locked_until.getD 0 then
      (self1, true, some (status.locked_until.getD 0 - current_time))
    else
      ({ self1 with
          ip_attempts := updS self1.ip_attempts ip_address { status with locked_until := none } },
       false, none)

/-- is_account_locked: the account-keyed twin of is_ip_locked. -/
def BruteForceProtection.is_account_locked
    (self : BruteForceProtection) (email : String) (current_time : Int) :
    BruteForceProtection × Bool × Option Int :=
  let self1 := self._cleanup_old_data current_time
  match lookupS self1.account_attempts email with
  | none => (self1, false, none)
  | some status =>
    if !pyTruthy status.locked_until then (self1, false, none)
    else if current_time < status.locked_until.getD 0 then
      (self1, true, some (status.locked_until.getD 0 - current_time))
    else
      ({ self1 with
          account_attempts := updS self1.account_attempts email { status with locked_until := none } },
       false, none)

/-- The reason strings of the result dict: "ip", "account", "both" (the
specification calls the ip-keyed side the address-keyed side). -/
inductive LockReason where
  | ip
  | account
  | both
deriving Repr, DecidableEq

/-- The dictionary returned by record_attempt. The success branch of the
source omits the ip_locked and account_locked keys; here they are false. -/
structure LockoutResult where
  locked : Bool
  reason : Option LockReason
  lockout_duration : Nat
  ip_locked : Bool
  account_locked : Bool
deriving Repr, DecidableEq

/-- The per-status mutation at the top of record_attempt, identical for
the IP-keyed and the account-keyed status: append the attempt, stamp
last_attempt_time, and set first_attempt_time if it is falsy. -/
def recordTouch (attempt : LoginAttempt) (current_time : Int)
    (status : LockoutStatus) : LockoutStatus :=
  let status :=
    { status with
      attempts := status.attempts ++ [attempt]
      last_attempt_time := some current_time }
  if !pyTruthy status.first_attempt_time then
    { status with first_attempt_time := some current_time }
  else status

/-- One threshold check of record_attempt: when failed_attempts has
reached max_attempts, compute the duration from the current lockout_count,
set locked_until and bump lockout_count, reporting the imposed duration. -/
def BruteForceProtection.thresholdCheck
    (self : BruteForceProtection) (current_time : Int)
    (status : LockoutStatus) : LockoutStatus × Option Nat :=
  if self.max_attempts ≤ status.failed_attempts then
    let d := self._calculate_lockout_duration status.lockout_count
    ({ status with
        locked_until := some (current_time + (d : Int))
        lockout_count := status.lockout_count + 1 },
     some d)
  else (status, none)

/-- The incremental construction of the result dict of record_attempt on
the failure path: the IP branch first, then the account branch reading the
reason the IP branch left behind. -/
def buildLockoutResult (dIp dAcc : Option Nat) : LockoutResult :=
  let r0 : LockoutResult :=
    { locked := false, reason := none, lockout_duration := 0,
      ip_locked := false, account_locked := false }
  let r1 :=
    match dIp with
    | some d =>
      { r0 with locked := true, ip_locked := true,
                reason := some LockReason.ip, lockout_duration := d }
    | none => r0
  match dAcc with
  | some d =>
    { r1 with
        locked := true
        account_locked := true
        reason := if r1.reason == some LockReason.ip
                  then some LockReason.both else some LockReason.account
        lockout_duration := max r1.lockout_duration d }
  | none => r1

/-- record_attempt: append the attempt to both statuses and stamp the
times; on success zero both failure counters and return unlocked; on
failure prune both histories (recomputing the counters), increment both
counters, and run the two independent threshold checks, aggregating the
outcome exactly as the source builds its result dict. -/
def BruteForceProtection.record_attempt
    (self : BruteForceProtection) (ip_address email : String)
    (success : Bool) (current_time : Int) :
    BruteForceProtection × LockoutResult :=
  let attempt : LoginAttempt :=
    { timestamp := current_time, success := success,
      ip_address := ip_address, email := email }
  let ip_status := recordTouch attempt current_time ((lookupS self.ip_attempts ip_address).getD {})
  let account_status := recordTouch attempt current_time ((lookupS self.account_attempts email).getD {})
  if success then
    ({ self with
        ip_attempts := updS self.ip_attempts ip_address { ip_status with failed_attempts := 0 }
        account_attempts := updS self.account_attempts email { account_status with failed_attempts := 0 } },
     { locked := false, reason := none, lockout_duration := 0,
       ip_locked := false, account_locked := false })
  else
    let ip_status := self._prune_old_attempts current_time ip_status
    let account_status := self._prune_old_attempts current_time account_status
    let ip_status := { ip_status with failed_attempts := ip_status.failed_attempts + 1 }
    let account_status := { account_status with failed_attempts := account_status.failed_attempts + 1 }
    let ipc := self.thresholdCheck current_time ip_status
    let acc := self.thresholdCheck current_time account_status
    ({ self with
        ip_attempts := updS self.ip_attempts ip_address ipc.1
        account_attempts := updS self.account_attempts email acc.1 },
     buildLockoutResult ipc.2 acc.2)

/-- reset_ip: administrative deletion of the IP-keyed status. -/
def BruteForceProtection.reset_ip
    (self : BruteForceProtection) (ip_address : String) : BruteForceProtection :=
  { self with ip_attempts := eraseS self.ip_attempts ip_address }

/-- reset_account: administrative deletion of the account-keyed status. -/
def BruteForceProtection.reset_account
    (self : BruteForceProtection) (email : String) : BruteForceProtection :=
  { self with account_attempts := eraseS self.account_attempts email }

/-- The failure count that pruning at current_time assigns to a history:
the number of unsuccessful entries strictly inside the window. -/
def failedInWindow (window_duration : Nat) (current_time : Int)
    (l : List LoginAttempt) : Nat :=
  ((l.filter (fun a => current_time - (window_duration : Int) < a.timestamp)).filter
    (fun a => !a.success)).length

/-! ## Association-list lemmas -/

theorem find?_filter_comm (l : SMap) (p q : (String × LockoutStatus) → Bool)
    (h : ∀ x, p x = true → q x = true) :
    (l.filter q).find? p = l.find? p := by
  induction l with
  | nil => rfl
  | cons a t ih =>
    by_cases hq : q a = true
    · rw [List.filter_cons_of_pos hq]
      by_cases hp : p a = true
      · rw [List.find?_cons_of_pos _ hp, List.find?_cons_of_pos _ hp]
      · rw [List.find?_cons_of_neg _ hp, List.find?_cons_of_neg _ hp, ih]
    · have hp : ¬ p a = true := fun hpa => hq (h a hpa)
      rw [List.filter_cons_of_neg hq, List.find?_cons_of_neg _ hp, ih]

theorem find?_filter_of_find? (l : SMap) (p q : (String × LockoutStatus) → Bool)
    (x : String × LockoutStatus) (h : l.find? p = some x) (hq : q x = true) :
    (l.filter q).find? p = some x := by
  induction l with
  | nil => simp [List.find?] at h
  | cons a t ih =>
    by_cases hp : p a = true
    · rw [List.find?_cons_of_pos _ hp] at h
      injection h with h
      subst h
      rw [List.filter_cons_of_pos hq, List.find?_cons_of_pos _ hp]
    · rw [List.find?_cons_of_neg _ hp] at h
      by_cases hqa : q a = true
      · rw [List.filter_cons_of_pos hqa, List.find?_cons_of_neg _ hp, ih h]
      · rw [List.filter_cons_of_neg hqa, ih h]

theorem find?_filter_ne_self (m : SMap) (k : String) :
    (m.filter (fun p => p.1 != k)).find? (fun p => p.1 == k) = none := by
  rw [List.find?_eq_none]
  intro x hx
  have h2 := List.of_mem_filter hx
  simp only [bne_iff_ne, ne_eq] at h2
  simp [h2]

theorem lookupS_updS_self (m : SMap) (k : String) (v : LockoutStatus) :
    lookupS (updS m k v) k = some v := by
  simp [lookupS, updS, List.find?_append, find?_filter_ne_self, List.find?]

theorem lookupS_updS_ne (m : SMap) (k k2 : String) (v : LockoutStatus)
    (h : k2 ≠ k) : lookupS (updS m k v) k2 = lookupS m k2 := by
  have hcomm : (m.filter (fun p => p.1 != k)).find? (fun p => p.1 == k2)
      = m.find? (fun p => p.1 == k2) := by
    apply find?_filter_comm
    intro x hx
    simp only [beq_iff_eq] at hx
    simp [bne_iff_ne, hx, h]
  have hke : (k == k2) = false := beq_eq_false_iff_ne.mpr (fun hh => h hh.symm)
  have hlast : (([(k, v)] : SMap)).find? (fun p => p.1 == k2) = none := by
    simp [List.find?, hke]
  simp [lookupS, updS, List.find?_append, hcomm, hlast]

theorem lookupS_eraseS_self (m : SMap) (k : String) :
    lookupS (eraseS m k) k = none := by
  simp [lookupS, eraseS, find?_filter_ne_self]

theorem lookupS_eraseS_ne (m : SMap) (k k2 : String) (h : k2 ≠ k) :
    lookupS (eraseS m k) k2 = lookupS m k2 := by
  have hcomm : (m.filter (fun p => p.1 != k)).find? (fun p => p.1 == k2)
      = m.find? (fun p => p.1 == k2) := by
    apply find?_filter_comm
    intro x hx
    simp only [beq_iff_eq] at hx
    simp [bne_iff_ne, hx, h]
  simp [lookupS, eraseS, hcomm]

theorem lookupS_filter_none (m : SMap) (q : (String × LockoutStatus) → Bool)
    (k : String) (h : lookupS m k = none) : lookupS (m.filter q) k = none := by
  simp only [lookupS, Option.map_eq_none'] at h ⊢
  rw [List.find?_eq_none] at h ⊢
  intro x hx
  exact h x (List.mem_of_mem_filter hx)

theorem lookupS_filter_of_pass (m : SMap) (q : (String × LockoutStatus) → Bool)
    (k : String) (s : LockoutStatus) (h : lookupS m k = some s)
    (hq : q (k, s) = true) : lookupS (m.filter q) k = some s := by
  simp only [lookupS, Option.map_eq_some'] at h
  obtain ⟨p, hp, hps⟩ := h
  have hk : p.1 = k := by
    have := List.find?_some hp
    simpa using this
  have hpair : p = (k, s) := by
    cases p
    simp_all
  subst hpair
  simp [lookupS, find?_filter_of_find? m _ q _ hp hq]

/-! ## Status-mutation lemmas -/

theorem recordTouch_attempts (a : LoginAttempt) (t : Int) (s : LockoutStatus) :
    (recordTouch a t s).attempts = s.attempts ++ [a] := by
  simp only [recordTouch]
  split <;> rfl

theorem recordTouch_locked_until (a : LoginAttempt) (t : Int) (s : LockoutStatus) :
    (recordTouch a t s).locked_until = s.locked_until := by
  simp only [recordTouch]
  split <;> rfl

theorem recordTouch_lockout_count (a : LoginAttempt) (t : Int) (s : LockoutStatus) :
    (recordTouch a t s).lockout_count = s.lockout_count := by
  simp only [recordTouch]
  split <;> rfl

theorem prune_failed_attempts (self : BruteForceProtection) (t : Int) (s : LockoutStatus) :
    (self._prune_old_attempts t s).failed_attempts
      = failedInWindow self.window_duration t s.attempts := rfl

theorem prune_lockout_count (self : BruteForceProtection) (t : Int) (s : LockoutStatus) :
    (self._prune_old_attempts t s).lockout_count = s.lockout_count := rfl

theorem prune_locked_until (self : BruteForceProtection) (t : Int) (s : LockoutStatus) :
    (self._prune_old_attempts t s).locked_until = s.locked_until := rfl

theorem thresholdCheck_snd (self : BruteForceProtection) (now : Int) (s : LockoutStatus) :
    (self.thresholdCheck now s).2
      = if self.max_attempts ≤ s.failed_attempts
        then some (self._calculate_lockout_duration s.lockout_count) else none := by
  unfold BruteForceProtection.thresholdCheck
  split <;> rfl

theorem thresholdCheck_fst (self : BruteForceProtection) (now : Int) (s : LockoutStatus) :
    (self.thresholdCheck now s).1
      = if self.max_attempts ≤ s.failed_attempts
        then { s with
                locked_until := some (now + (self._calculate_lockout_duration s.lockout_count : Int))
                lockout_count := s.lockout_count + 1 }
        else s := by
  unfold BruteForceProtection.thresholdCheck
  split <;> rfl

theorem buildLockoutResult_fields (dIp dAcc : Option Nat) :
    (buildLockoutResult dIp dAcc).ip_locked = dIp.isSome ∧
    (buildLockoutResult dIp dAcc).account_locked = dAcc.isSome ∧
    (buildLockoutResult dIp dAcc).locked = (dIp.isSome || dAcc.isSome) ∧
    (buildLockoutResult dIp dAcc).reason
      = (match dIp, dAcc with
         | some _, some _ => some LockReason.both
         | some _, none => some LockReason.ip
         | none, some _ => some LockReason.account
         | none, none => none) ∧
    (buildLockoutResult dIp dAcc).lockout_duration
      = (match dIp, dAcc with
         | some d1, some d2 => max d1 d2
         | some d1, none => d1
         | none, some d2 => d2
         | none, none => 0) := by
  cases dIp <;> cases dAcc <;> simp [buildLockoutResult]

theorem removeEligible_iff (now cutoff : Int) (s : LockoutStatus) :
    removeEligible now cutoff s = true ↔
      (pyTruthy s.locked_until = true ∧ s.locked_until.getD 0 < now ∧
        (s.attempts = [] ∨ maxTimestamp s.attempts < cutoff)) := by
  simp [removeEligible, and_assoc, List.isEmpty_iff]

/-! ## Claims -/

/-- Claim C5: calculate_duration returns the configured base duration when
exponential backoff is disabled or lockout_count is 0, and otherwise
min (base * 2 ^ lockout_count) max_duration; as a Lean function it is pure
and deterministic by construction. -/
theorem c5_calculate_duration (self : BruteForceProtection) (lockout_count : Nat) :
    (self.exponential_backoff = false ∨ lockout_count = 0 →
      self._calculate_lockout_duration lockout_count = self.lockout_duration) ∧
    (self.exponential_backoff = true → lockout_count ≠ 0 →
      self._calculate_lockout_duration lockout_count
        = min (self.lockout_duration * 2 ^ lockout_count) self.max_lockout_duration) := by
  constructor
  · rintro (h | h) <;> simp [BruteForceProtection._calculate_lockout_duration, h]
  · intro hb hk
    simp [BruteForceProtection._calculate_lockout_duration, hb, hk]

/-- Witness for C5 at the default configuration, lockout_count 0 and 2. -/
theorem c5_calculate_duration_witness :
    ({} : BruteForceProtection)._calculate_lockout_duration 0 = 300 ∧
    ({} : BruteForceProtection)._calculate_lockout_duration 2 = min (300 * 2 ^ 2) 3600 := by
  exact ⟨(c5_calculate_duration {} 0).1 (Or.inr rfl),
         (c5_calculate_duration {} 2).2 rfl (by decide)⟩

/-- Claim C6 counterexample: with exponential backoff enabled, base 300
and maximum 100, the duration of the second lockout (min (2 * 300) 100 =
100) is smaller than that of the first (300): the imposed sequence is not
non-decreasing as claimed for every base and maximum. -/
theorem c6_backoff_not_monotone_cex :
    ¬ (({ lockout_duration := 300, max_lockout_duration := 100 } :
          BruteForceProtection)._calculate_lockout_duration 0 ≤
        ({ lockout_duration := 300, max_lockout_duration := 100 } :
          BruteForceProtection)._calculate_lockout_duration 1) := by decide

/-- Claim C6 (amended): with exponential backoff enabled and the base not
exceeding the maximum, the computed duration is non-decreasing in
lockout_count and never exceeds the maximum for lockout_count at least 1. -/
theorem c6_backoff_monotone_capped (self : BruteForceProtection)
    (hb : self.exponential_backoff = true)
    (hm : self.lockout_duration ≤ self.max_lockout_duration) :
    (∀ k, self._calculate_lockout_duration k ≤ self._calculate_lockout_duration (k + 1)) ∧
    (∀ k, 1 ≤ k → self._calculate_lockout_duration k ≤ self.max_lockout_duration) := by
  constructor
  · intro k
    cases k with
    | zero =>
      simp only [BruteForceProtection._calculate_lockout_duration, hb, Bool.not_true,
        Bool.false_or]
      simp only [beq_self_eq_true, if_true]
      have h1 : (0 + 1 == 0) = false := by decide
      rw [h1]
      simp only [Bool.false_eq_true, if_false]
      exact le_min (by omega) hm
    | succ n =>
      simp only [BruteForceProtection._calculate_lockout_duration, hb, Bool.not_true,
        Bool.false_or]
      have h1 : (n + 1 == 0) = false := by simp
      have h2 : (n + 1 + 1 == 0) = false := by simp
      rw [h1, h2]
      simp only [Bool.false_eq_true, if_false]
      exact min_le_min
        (Nat.mul_le_mul_left _ (Nat.pow_le_pow_right (by norm_num) (by omega)))
        (le_refl _)
  · intro k hk
    have h1 : (k == 0) = false := by simp; omega
    simp only [BruteForceProtection._calculate_lockout_duration, hb, Bool.not_true,
      Bool.false_or, h1]
    simp only [Bool.false_eq_true, if_false]
    exact min_le_right _ _

/-- Witness for C6 at the default configuration. -/
theorem c6_backoff_monotone_capped_witness :
    ({} : BruteForceProtection)._calculate_lockout_duration 0 ≤
      ({} : BruteForceProtection)._calculate_lockout_duration 1 ∧
    ({} : BruteForceProtection)._calculate_lockout_duration 1 ≤ 3600 := by
  exact ⟨(c6_backoff_monotone_capped {} rfl (by decide)).1 0,
         (c6_backoff_monotone_capped {} rfl (by decide)).2 1 (by decide)⟩

/-- Claim C1 (code bug): after a single failed record_attempt from a fresh
state at time 1000 under the default configuration, the stored IP status
has failed_attempts = 2 while its (pruned) history holds exactly one
record with success = false. The counter is one more than the number of
failed records, because record_attempt increments it again after pruning
has already recounted the newly appended failure. -/
theorem c1_counter_double_count :
    (lookupS
        ((({} : BruteForceProtection).record_attempt "1.2.3.4" "a@b.com" false 1000).1.ip_attempts)
        "1.2.3.4").map
      (fun s => (s.failed_attempts, (s.attempts.filter (fun a => !a.success)).length))
      = some (2, 1) := by decide

/-- Claim C2 (code bug): default configuration (max_attempts = 5,
window_duration = 900); four failed attempts at times 10, 11, 12, 13 (all
older than 1000 - 900 = 100, hence outside the window of the final
attempt) followed by one recent failed attempt at time 1000. The claim
says no call of the sequence returns locked = true, but the fourth call
already does: the double-counted counter reaches max_attempts after only
max_attempts - 1 = 4 in-window failures. The final recent call itself
does not lock. -/
theorem c2_old_burst_locks :
    (let b0 : BruteForceProtection := {}
     let b1 := (b0.record_attempt "1.2.3.4" "a@b.com" false 10).1
     let b2 := (b1.record_attempt "1.2.3.4" "a@b.com" false 11).1
     let b3 := (b2.record_attempt "1.2.3.4" "a@b.com" false 12).1
     let r4 := b3.record_attempt "1.2.3.4" "a@b.com" false 13
     let r5 := r4.1.record_attempt "1.2.3.4" "a@b.com" false 1000
     r4.2.locked = true ∧ r4.2.ip_locked = true ∧ r4.2.account_locked = true ∧
     r5.2.locked = false) := by decide

/-- Claim C10: default configuration; three failed attempts at times
1000..1002, a successful one at 1003 (the counter is reset to 0 but the
three failure records stay in history), then a single failed attempt at
1004: the recount over the pruned history makes the old failures count
again and the single failure immediately imposes a lockout on both keys. -/
theorem c10_success_reset_not_durable :
    (let b0 : BruteForceProtection := {}
     let b1 := (b0.record_attempt "1.2.3.4" "a@b.com" false 1000).1
     let b2 := (b1.record_attempt "1.2.3.4" "a@b.com" false 1001).1
     let b3 := (b2.record_attempt "1.2.3.4" "a@b.com" false 1002).1
     let b4 := (b3.record_attempt "1.2.3.4" "a@b.com" true 1003).1
     let r5 := b4.record_attempt "1.2.3.4" "a@b.com" false 1004
     ((lookupS b4.ip_attempts "1.2.3.4").map (fun s => s.failed_attempts) = some 0) ∧
     ((lookupS b4.ip_attempts "1.2.3.4").map
        (fun s => (s.attempts.filter (fun a => !a.success)).length) = some 3) ∧
     r5.2.locked = true ∧ r5.2.reason = some LockReason.both ∧
     ((lookupS r5.1.ip_attempts "1.2.3.4").map (fun s => s.failed_attempts) = some 5)) := by
  decide

/-- Claim C3 counterexample: an entry whose locked_until is unset (None)
and whose only history record (time 10) is far older than now minus the
window (5000 - 900) survives a due sweep (last_cleanup = 0, now = 5000,
cleanup_interval = 3600): the sweep did run (last_cleanup becomes 5000),
yet the entry is still present, so "locked_until unset or in the past" is
not sufficient for removal. -/
theorem c3_unlocked_entry_kept :
    (let st : BruteForceProtection :=
      { ip_attempts := [("1.2.3.4",
          { failed_attempts := 1,
            attempts := [{ timestamp := 10, success := false,
                           ip_address := "1.2.3.4", email := "a@b.com" }] })]
        last_cleanup := 0 }
     (st._cleanup_old_data 5000).last_cleanup = 5000 ∧
     lookupS (st._cleanup_old_data 5000).ip_attempts "1.2.3.4"
       = some { failed_attempts := 1,
                attempts := [{ timestamp := 10, success := false,
                               ip_address := "1.2.3.4", email := "a@b.com" }] }) := by
  decide

/-- Claim C3 (amended): during a due sweep the garbage collector removes a
key entry of either map exactly when locked_until is set (truthy) and in
the past AND (the history is empty OR its most recent timestamp is older
than now minus window_duration). An entry whose locked_until is unset is
never removed, however stale its history. -/
theorem c3_sweep_removal_iff (self : BruteForceProtection) (now : Int)
    (hdue : (self.cleanup_interval : Int) ≤ now - self.last_cleanup)
    (k : String) (s : LockoutStatus) :
    ((k, s) ∈ (self._cleanup_old_data now).ip_attempts ↔
      (k, s) ∈ self.ip_attempts ∧
        ¬(pyTruthy s.locked_until = true ∧ s.locked_until.getD 0 < now ∧
          (s.attempts = [] ∨ maxTimestamp s.attempts < now - (self.window_duration : Int)))) ∧
    ((k, s) ∈ (self._cleanup_old_data now).account_attempts ↔
      (k, s) ∈ self.account_attempts ∧
        ¬(pyTruthy s.locked_until = true ∧ s.locked_until.getD 0 < now ∧
          (s.attempts = [] ∨ maxTimestamp s.attempts < now - (self.window_duration : Int)))) := by
  have hcond : ¬ (now - self.last_cleanup < (self.cleanup_interval : Int)) := not_lt.mpr hdue
  rw [BruteForceProtection._cleanup_old_data, if_neg hcond]
  constructor <;>
  · rw [List.mem_filter]
    constructor
    · rintro ⟨hmem, hq⟩
      refine ⟨hmem, fun hc => ?_⟩
      rw [Bool.not_eq_true'] at hq
      rw [← removeEligible_iff now (now - (self.window_duration : Int)) s] at hc
      simp [hq] at hc
    · rintro ⟨hmem, hnc⟩
      refine ⟨hmem, ?_⟩
      rw [Bool.not_eq_true']
      rw [← Bool.not_eq_true]
      intro hc
      exact hnc ((removeEligible_iff now (now - (self.window_duration : Int)) s).mp hc)

/-- Witness for C3 (amended): an entry with an expired lock and empty
history is removed by a due sweep. -/
theorem c3_sweep_removal_iff_witness :
    ("1.2.3.4", ({ locked_until := some 100 } : LockoutStatus)) ∉
      ((({ ip_attempts := [("1.2.3.4", { locked_until := some 100 })],
           last_cleanup := 0 } : BruteForceProtection))._cleanup_old_data 5000).ip_attempts := by
  intro hmem
  have h :=
    ((c3_sweep_removal_iff
        { ip_attempts := [("1.2.3.4", { locked_until := some 100 })], last_cleanup := 0 }
        5000 (by decide) "1.2.3.4" { locked_until := some 100 }).1).mp hmem
  exact h.2 (by decide)

theorem buildLockoutResult_if (c1 c2 : Prop) [Decidable c1] [Decidable c2] (d1 d2 : Nat) :
    buildLockoutResult (if c1 then some d1 else none) (if c2 then some d2 else none)
      = { locked := decide c1 || decide c2
          reason := if c1 then (if c2 then some LockReason.both else some LockReason.ip)
                    else (if c2 then some LockReason.account else none)
          lockout_duration :=
            if c1 then (if c2 then max d1 d2 else d1) else (if c2 then d2 else 0)
          ip_locked := decide c1
          account_locked := decide c2 } := by
  by_cases h1 : c1 <;> by_cases h2 : c2 <;> simp [buildLockoutResult, h1, h2]

/-- Claim C4: for every failed record_attempt, locked is true iff at least
one of the two per-key threshold checks fired; the reason names the side
or sides that fired (the source string "ip" is what the specification
calls "address"); and the duration is the maximum of the durations
actually imposed, 0 if neither fired. The fired conditions and the
durations are expressed over the pre-call state: a side fires when the
failure count of its pruned history including the new attempt, plus the
extra increment, reaches max_attempts, and its duration comes from its
pre-call lockout_count. -/
theorem c4_failed_result_aggregation (self : BruteForceProtection)
    (ip email : String) (now : Int) :
    (let a : LoginAttempt :=
       { timestamp := now, success := false, ip_address := ip, email := email }
     let nIp := failedInWindow self.window_duration now
        (((lookupS self.ip_attempts ip).getD {}).attempts ++ [a]) + 1
     let nAcc := failedInWindow self.window_duration now
        (((lookupS self.account_attempts email).getD {}).attempts ++ [a]) + 1
     let dIp := self._calculate_lockout_duration
        ((lookupS self.ip_attempts ip).getD {}).lockout_count
     let dAcc := self._calculate_lockout_duration
        ((lookupS self.account_attempts email).getD {}).lockout_count
     let r := (self.record_attempt ip email false now).2
     r.ip_locked = decide (self.max_attempts ≤ nIp) ∧
     r.account_locked = decide (self.max_attempts ≤ nAcc) ∧
     r.locked = (r.ip_locked || r.account_locked) ∧
     r.reason = (if r.ip_locked then
                   if r.account_locked then some LockReason.both else some LockReason.ip
                 else if r.account_locked then some LockReason.account else none) ∧
     r.lockout_duration =
       (if r.ip_locked then (if r.account_locked then max dIp dAcc else dIp)
        else if r.account_locked then dAcc else 0)) := by
  have hkey : (self.record_attempt ip email false now).2
      = buildLockoutResult
          (self.thresholdCheck now
            { self._prune_old_attempts now
                (recordTouch { timestamp := now, success := false, ip_address := ip, email := email }
                  now ((lookupS self.ip_attempts ip).getD {})) with
              failed_attempts :=
                (self._prune_old_attempts now
                  (recordTouch { timestamp := now, success := false, ip_address := ip, email := email }
                    now ((lookupS self.ip_attempts ip).getD {}))).failed_attempts + 1 }).2
          (self.thresholdCheck now
            { self._prune_old_attempts now
                (recordTouch { timestamp := now, success := false, ip_address := ip, email := email }
                  now ((lookupS self.account_attempts email).getD {})) with
              failed_attempts :=
                (self._prune_old_attempts now
                  (recordTouch { timestamp := now, success := false, ip_address := ip, email := email }
                    now ((lookupS self.account_attempts email).getD {}))).failed_attempts + 1 }).2 := rfl
  refine ⟨?_, ?_, ?_, ?_, ?_⟩ <;>
    rw [hkey] <;>
    simp only [thresholdCheck_snd, prune_failed_attempts, recordTouch_attempts,
      prune_lockout_count, recordTouch_lockout_count, buildLockoutResult_if] <;>
    simp

/-- Claim C7: for each key, the lock check returns (false, none) when no
status exists or locked_until is unset (falsy); returns
(true, locked_until - now) when locked_until is set and in the future; and
when locked_until has passed it clears it to none in the same call and
returns (false, none) — the lazy expiry needs no other call. Stated for
is_ip_locked and is_account_locked over the state left by the inline
cleanup sweep. -/
theorem c7_lock_check (self : BruteForceProtection) (key : String) (now : Int) :
    (lookupS (self._cleanup_old_data now).ip_attempts key = none →
       self.is_ip_locked key now = (self._cleanup_old_data now, false, none)) ∧
    (∀ s, lookupS (self._cleanup_old_data now).ip_attempts key = some s →
       pyTruthy s.locked_until = false →
       self.is_ip_locked key now = (self._cleanup_old_data now, false, none)) ∧
    (∀ s t, lookupS (self._cleanup_old_data now).ip_attempts key = some s →
       s.locked_until = some t → t ≠ 0 → now < t →
       self.is_ip_locked key now = (self._cleanup_old_data now, true, some (t - now))) ∧
    (∀ s t, lookupS (self._cleanup_old_data now).ip_attempts key = some s →
       s.locked_until = some t → t ≠ 0 → ¬ now < t →
       (self.is_ip_locked key now).2 = (false, none) ∧
       lookupS (self.is_ip_locked key now).1.ip_attempts key
         = some { s with locked_until := none }) ∧
    (lookupS (self._cleanup_old_data now).account_attempts key = none →
       self.is_account_locked key now = (self._cleanup_old_data now, false, none)) ∧
    (∀ s, lookupS (self._cleanup_old_data now).account_attempts key = some s →
       pyTruthy s.locked_until = false →
       self.is_account_locked key now = (self._cleanup_old_data now, false, none)) ∧
    (∀ s t, lookupS (self._cleanup_old_data now).account_attempts key = some s →
       s.locked_until = some t → t ≠ 0 → now < t →
       self.is_account_locked key now = (self._cleanup_old_data now, true, some (t - now))) ∧
    (∀ s t, lookupS (self._cleanup_old_data now).account_attempts key = some s →
       s.locked_until = some t → t ≠ 0 → ¬ now < t →
       (self.is_account_locked key now).2 = (false, none) ∧
       lookupS (self.is_account_locked key now).1.account_attempts key
         = some { s with locked_until := none }) := by
  refine ⟨?_, ?_, ?_, ?_, ?_, ?_, ?_, ?_⟩
  · intro h
    simp only [BruteForceProtection.is_ip_locked]
    rw [h]
  · intro s hs ht
    simp only [BruteForceProtection.is_ip_locked]
    rw [hs]
    simp [ht]
  · intro s t hs hlu ht0 hlt
    simp only [BruteForceProtection.is_ip_locked]
    rw [hs]
    simp [hlu, pyTruthy, ht0, hlt]
  · intro s t hs hlu ht0 hge
    simp only [BruteForceProtection.is_ip_locked]
    rw [hs]
    simp only [hlu, pyTruthy, Option.getD_some]
    have hne : (t != 0) = true := bne_iff_ne.mpr ht0
    rw [hne]
    simp only [Bool.not_true, Bool.false_eq_true, if_false, if_neg hge]
    exact ⟨trivial, lookupS_updS_self _ _ _⟩
  · intro h
    simp only [BruteForceProtection.is_account_locked]
    rw [h]
  · intro s hs ht
    simp only [BruteForceProtection.is_account_locked]
    rw [hs]
    simp [ht]
  · intro s t hs hlu ht0 hlt
    simp only [BruteForceProtection.is_account_locked]
    rw [hs]
    simp [hlu, pyTruthy, ht0, hlt]
  · intro s t hs hlu ht0 hge
    simp only [BruteForceProtection.is_account_locked]
    rw [hs]
    simp only [hlu, pyTruthy, Option.getD_some]
    have hne : (t != 0) = true := bne_iff_ne.mpr ht0
    rw [hne]
    simp only [Bool.not_true, Bool.false_eq_true, if_false, if_neg hge]
    exact ⟨trivial, lookupS_updS_self _ _ _⟩

/-- Witness for C7: an absent key, a future lock, an expired lock that is
cleared by the check itself, and an absent account key. -/
theorem c7_lock_check_witness :
    ({} : BruteForceProtection).is_ip_locked "1.2.3.4" 0
      = (({} : BruteForceProtection)._cleanup_old_data 0, false, none) ∧
    ({ ip_attempts := [("1.2.3.4", { locked_until := some 100 })], last_cleanup := 50 }
        : BruteForceProtection).is_ip_locked "1.2.3.4" 50
      = (({ ip_attempts := [("1.2.3.4", { locked_until := some 100 })], last_cleanup := 50 }
          : BruteForceProtection)._cleanup_old_data 50, true, some (100 - 50)) ∧
    (({ ip_attempts := [("1.2.3.4", { locked_until := some 100 })], last_cleanup := 150 }
        : BruteForceProtection).is_ip_locked "1.2.3.4" 150).2 = (false, none) ∧
    lookupS (({ ip_attempts := [("1.2.3.4", { locked_until := some 100 })], last_cleanup := 150 }
        : BruteForceProtection).is_ip_locked "1.2.3.4" 150).1.ip_attempts "1.2.3.4"
      = some { locked_until := none } ∧
    ({} : BruteForceProtection).is_account_locked "1.2.3.4" 0
      = (({} : BruteForceProtection)._cleanup_old_data 0, false, none) := by
  refine ⟨?_, ?_, ?_, ?_, ?_⟩
  · exact (c7_lock_check {} "1.2.3.4" 0).1 (by decide)
  · exact (c7_lock_check _ "1.2.3.4" 50).2.2.1
      { locked_until := some 100 } 100 (by decide) rfl (by decide) (by decide)
  · exact ((c7_lock_check _ "1.2.3.4" 150).2.2.2.1
      { locked_until := some 100 } 100 (by decide) rfl (by decide) (by decide)).1
  · exact ((c7_lock_check _ "1.2.3.4" 150).2.2.2.1
      { locked_until := some 100 } 100 (by decide) rfl (by decide) (by decide)).2
  · exact (c7_lock_check {} "1.2.3.4" 0).2.2.2.2.1 (by decide)

theorem buildLockoutResult_ip_locked (dIp dAcc : Option Nat) :
    (buildLockoutResult dIp dAcc).ip_locked = dIp.isSome :=
  (buildLockoutResult_fields dIp dAcc).1

theorem calc_zero (self : BruteForceProtection) :
    self._calculate_lockout_duration 0 = self.lockout_duration := by
  simp [BruteForceProtection._calculate_lockout_duration]

/-- The IP-keyed status as it stands at the threshold check of a failed
record_attempt: touched, pruned, and incremented once more. -/
def failedIpStatus (self : BruteForceProtection) (ip email : String) (now : Int) :
    LockoutStatus :=
  let a : LoginAttempt :=
    { timestamp := now, success := false, ip_address := ip, email := email }
  let s := self._prune_old_attempts now
    (recordTouch a now ((lookupS self.ip_attempts ip).getD {}))
  { s with failed_attempts := s.failed_attempts + 1 }

/-- The account-keyed status at the threshold check of a failed
record_attempt. -/
def failedAccStatus (self : BruteForceProtection) (ip email : String) (now : Int) :
    LockoutStatus :=
  let a : LoginAttempt :=
    { timestamp := now, success := false, ip_address := ip, email := email }
  let s := self._prune_old_attempts now
    (recordTouch a now ((lookupS self.account_attempts email).getD {}))
  { s with failed_attempts := s.failed_attempts + 1 }

theorem record_attempt_failed_eq (self : BruteForceProtection)
    (ip email : String) (now : Int) :
    self.record_attempt ip email false now
      = ({ self with
            ip_attempts := updS self.ip_attempts ip
              (self.thresholdCheck now (failedIpStatus self ip email now)).1
            account_attempts := updS self.account_attempts email
              (self.thresholdCheck now (failedAccStatus self ip email now)).1 },
         buildLockoutResult
           (self.thresholdCheck now (failedIpStatus self ip email now)).2
           (self.thresholdCheck now (failedAccStatus self ip email now)).2) := rfl

theorem record_attempt_success_eq (self : BruteForceProtection)
    (ip email : String) (now : Int) :
    self.record_attempt ip email true now
      = ({ self with
            ip_attempts := updS self.ip_attempts ip
              { recordTouch { timestamp := now, success := true, ip_address := ip, email := email }
                  now ((lookupS self.ip_attempts ip).getD {}) with
                failed_attempts := 0 }
            account_attempts := updS self.account_attempts email
              { recordTouch { timestamp := now, success := true, ip_address := ip, email := email }
                  now ((lookupS self.account_attempts email).getD {}) with
                failed_attempts := 0 } },
         { locked := false, reason := none, lockout_duration := 0,
           ip_locked := false, account_locked := false }) := rfl

theorem failedIpStatus_lockout_count (self : BruteForceProtection)
    (ip email : String) (now : Int) :
    (failedIpStatus self ip email now).lockout_count
      = ((lookupS self.ip_attempts ip).getD {}).lockout_count := by
  simp [failedIpStatus, prune_lockout_count, recordTouch_lockout_count]

theorem failedIpStatus_locked_until (self : BruteForceProtection)
    (ip email : String) (now : Int) :
    (failedIpStatus self ip email now).locked_until
      = ((lookupS self.ip_attempts ip).getD {}).locked_until := by
  simp [failedIpStatus, prune_locked_until, recordTouch_locked_until]

/-- Claim C8: reset deletes the Lockout Status entirely: the key is absent
from the map, an immediately subsequent lock check returns (false, none),
and a fresh failure sequence starts from the default status with
lockout_count 0 — if the first failed attempt after the reset locks the
key, the stored lockout_count is 1 and the imposed duration is the base
duration (the lockout_count-0 value); if it does not lock, the stored
lockout_count is 0 and no lock is set. -/
theorem c8_reset_clean (self : BruteForceProtection) (ip email : String)
    (now now2 : Int) :
    lookupS (self.reset_ip ip).ip_attempts ip = none ∧
    ((self.reset_ip ip).is_ip_locked ip now).2 = (false, none) ∧
    ((lookupS (self.reset_ip ip).ip_attempts ip).getD {}).lockout_count = 0 ∧
    (((self.reset_ip ip).record_attempt ip email false now2).2.ip_locked = true →
       (lookupS ((self.reset_ip ip).record_attempt ip email false now2).1.ip_attempts ip).map
         (fun s => (s.lockout_count, s.locked_until))
         = some (1, some (now2 + (self.lockout_duration : Int)))) ∧
    (((self.reset_ip ip).record_attempt ip email false now2).2.ip_locked = false →
       (lookupS ((self.reset_ip ip).record_attempt ip email false now2).1.ip_attempts ip).map
         (fun s => (s.lockout_count, s.locked_until))
         = some (0, none)) ∧
    lookupS (self.reset_account email).account_attempts email = none ∧
    ((self.reset_account email).is_account_locked email now).2 = (false, none) ∧
    ((lookupS (self.reset_account email).account_attempts email).getD {}).lockout_count = 0 := by
  have hip : lookupS (self.reset_ip ip).ip_attempts ip = none := lookupS_eraseS_self _ _
  have hacc : lookupS (self.reset_account email).account_attempts email = none :=
    lookupS_eraseS_self _ _
  have hclean : lookupS ((self.reset_ip ip)._cleanup_old_data now).ip_attempts ip = none := by
    unfold BruteForceProtection._cleanup_old_data
    split
    · exact hip
    · exact lookupS_filter_none _ _ _ hip
  have hcleanacc :
      lookupS ((self.reset_account email)._cleanup_old_data now).account_attempts email = none := by
    unfold BruteForceProtection._cleanup_old_data
    split
    · exact hacc
    · exact lookupS_filter_none _ _ _ hacc
  have hpre : (lookupS (self.reset_ip ip).ip_attempts ip).getD {} = ({} : LockoutStatus) := by
    rw [hip]
    rfl
  have hlk : (failedIpStatus (self.reset_ip ip) ip email now2).lockout_count = 0 := by
    rw [failedIpStatus_lockout_count, hpre]
  have hlu : (failedIpStatus (self.reset_ip ip) ip email now2).locked_until = none := by
    rw [failedIpStatus_locked_until, hpre]
  refine ⟨hip, ?_, ?_, ?_, ?_, hacc, ?_, ?_⟩
  · simp only [BruteForceProtection.is_ip_locked]
    rw [hclean]
  · rw [hip]
    rfl
  · intro hlock
    rw [record_attempt_failed_eq] at hlock ⊢
    simp only [buildLockoutResult_ip_locked, thresholdCheck_snd] at hlock
    simp only [lookupS_updS_self, Option.map_some, thresholdCheck_fst]
    split
    · rw [hlk, calc_zero]
      rfl
    · rw [if_neg (by assumption)] at hlock
      simp at hlock
  · intro hnot
    rw [record_attempt_failed_eq] at hnot ⊢
    simp only [buildLockoutResult_ip_locked, thresholdCheck_snd] at hnot
    simp only [lookupS_updS_self, Option.map_some, thresholdCheck_fst]
    split
    · rw [if_pos (by assumption)] at hnot
      simp at hnot
    · simp only [Option.map_some']
      rw [hlk, hlu]
  · simp only [BruteForceProtection.is_account_locked]
    rw [hcleanacc]
  · rw [hacc]
    rfl

/-- Witness for C8: a key with prior escalation (lockout_count 7, locked
far in the future) is reset; the key is gone, the check is unlocked, and
with max_attempts 2 the first post-reset failure locks with lockout_count
1 and the base duration 300, while with the default max_attempts 5 it does
not lock and lockout_count stays 0. -/
theorem c8_reset_clean_witness :
    lookupS (({ max_attempts := 2, ip_attempts := [("1.2.3.4", { lockout_count := 7, locked_until := some 5000 })] } : BruteForceProtection).reset_ip "1.2.3.4").ip_attempts "1.2.3.4" = none ∧
    ((({ max_attempts := 2, ip_attempts := [("1.2.3.4", { lockout_count := 7, locked_until := some 5000 })] } : BruteForceProtection).reset_ip "1.2.3.4").is_ip_locked "1.2.3.4" 5).2 = (false, none) ∧
    (lookupS ((({ max_attempts := 2, ip_attempts := [("1.2.3.4", { lockout_count := 7, locked_until := some 5000 })] } : BruteForceProtection).reset_ip "1.2.3.4").record_attempt "1.2.3.4" "a@b.com" false 1000).1.ip_attempts "1.2.3.4").map (fun s => (s.lockout_count, s.locked_until)) = some (1, some (1000 + 300)) ∧
    (lookupS ((({ ip_attempts := [("1.2.3.4", { lockout_count := 7, locked_until := some 5000 })] } : BruteForceProtection).reset_ip "1.2.3.4").record_attempt "1.2.3.4" "a@b.com" false 1000).1.ip_attempts "1.2.3.4").map (fun s => (s.lockout_count, s.locked_until)) = some (0, none) := by
  refine ⟨?_, ?_, ?_, ?_⟩
  · exact (c8_reset_clean { max_attempts := 2, ip_attempts := [("1.2.3.4", { lockout_count := 7, locked_until := some 5000 })] } "1.2.3.4" "a@b.com" 5 1000).1
  · exact (c8_reset_clean { max_attempts := 2, ip_attempts := [("1.2.3.4", { lockout_count := 7, locked_until := some 5000 })] } "1.2.3.4" "a@b.com" 5 1000).2.1
  · exact (c8_reset_clean { max_attempts := 2, ip_attempts := [("1.2.3.4", { lockout_count := 7, locked_until := some 5000 })] } "1.2.3.4" "a@b.com" 5 1000).2.2.2.1 (by decide)
  · exact (c8_reset_clean { ip_attempts := [("1.2.3.4", { lockout_count := 7, locked_until := some 5000 })] } "1.2.3.4" "a@b.com" 5 1000).2.2.2.2.1 (by decide)

theorem is_ip_locked_of_future (st : BruteForceProtection) (key : String) (now2 : Int)
    (s : LockoutStatus) (t : Int) (hs : lookupS st.ip_attempts key = some s)
    (hlu : s.locked_until = some t) (ht0 : t ≠ 0) (hlt : now2 < t) :
    (st.is_ip_locked key now2).2 = (true, some (t - now2)) := by
  have hnot : ¬ t < now2 := not_lt.mpr (le_of_lt hlt)
  have hclean : lookupS (st._cleanup_old_data now2).ip_attempts key = some s := by
    unfold BruteForceProtection._cleanup_old_data
    split
    · exact hs
    · apply lookupS_filter_of_pass _ _ _ _ hs
      simp [removeEligible, hlu, hnot]
  simp only [BruteForceProtection.is_ip_locked]
  rw [hclean]
  simp [hlu, pyTruthy, ht0, hlt]

/-- Claim C9: a successful record_attempt only zeroes the failure counters
of the two touched statuses and appends the new record; locked_until,
lockout_count and the previously stored history of both statuses are
unchanged, untouched keys of both maps are unchanged, the cleanup clock is
unchanged, and a key that is currently locked remains locked afterwards. -/
theorem c9_success_frame (self : BruteForceProtection) (ip email : String) (now : Int) :
    (self.record_attempt ip email true now).2
      = { locked := false, reason := none, lockout_duration := 0,
          ip_locked := false, account_locked := false } ∧
    (lookupS (self.record_attempt ip email true now).1.ip_attempts ip).map
        (fun s => (s.failed_attempts, s.attempts, s.locked_until, s.lockout_count))
      = some (0,
          ((lookupS self.ip_attempts ip).getD {}).attempts
            ++ [{ timestamp := now, success := true, ip_address := ip, email := email }],
          ((lookupS self.ip_attempts ip).getD {}).locked_until,
          ((lookupS self.ip_attempts ip).getD {}).lockout_count) ∧
    (lookupS (self.record_attempt ip email true now).1.account_attempts email).map
        (fun s => (s.failed_attempts, s.attempts, s.locked_until, s.lockout_count))
      = some (0,
          ((lookupS self.account_attempts email).getD {}).attempts
            ++ [{ timestamp := now, success := true, ip_address := ip, email := email }],
          ((lookupS self.account_attempts email).getD {}).locked_until,
          ((lookupS self.account_attempts email).getD {}).lockout_count) ∧
    (self.record_attempt ip email true now).1.last_cleanup = self.last_cleanup ∧
    (∀ k, k ≠ ip → lookupS (self.record_attempt ip email true now).1.ip_attempts k
        = lookupS self.ip_attempts k) ∧
    (∀ k, k ≠ email → lookupS (self.record_attempt ip email true now).1.account_attempts k
        = lookupS self.account_attempts k) ∧
    (∀ t now2, ((lookupS self.ip_attempts ip).getD {}).locked_until = some t → t ≠ 0 →
       now2 < t →
       ((self.record_attempt ip email true now).1.is_ip_locked ip now2).2
         = (true, some (t - now2))) := by
  refine ⟨rfl, ?_, ?_, rfl, ?_, ?_, ?_⟩
  · rw [record_attempt_success_eq]
    simp only [lookupS_updS_self, Option.map_some']
    simp only [recordTouch_attempts, recordTouch_locked_until, recordTouch_lockout_count]
  · rw [record_attempt_success_eq]
    simp only [lookupS_updS_self, Option.map_some']
    simp only [recordTouch_attempts, recordTouch_locked_until, recordTouch_lockout_count]
  · intro k hk
    rw [record_attempt_success_eq]
    exact lookupS_updS_ne _ _ _ _ hk
  · intro k hk
    rw [record_attempt_success_eq]
    exact lookupS_updS_ne _ _ _ _ hk
  · intro t now2 hlu ht0 hlt
    refine is_ip_locked_of_future _ _ _
      { recordTouch { timestamp := now, success := true, ip_address := ip, email := email }
          now ((lookupS self.ip_attempts ip).getD {}) with
        failed_attempts := 0 } t ?_ ?_ ht0 hlt
    · rw [record_attempt_success_eq]
      exact lookupS_updS_self _ _ _
    · simp only [recordTouch_locked_until]
      exact hlu

/-- Witness for C9: a success for a currently locked key (locked until
2000) leaves an unrelated key untouched and leaves the key locked: a
check at time 1500 still reports (true, 500 seconds remaining). -/
theorem c9_success_frame_witness :
    lookupS ((({ ip_attempts := [("1.2.3.4", { locked_until := some 2000 })] } : BruteForceProtection).record_attempt "1.2.3.4" "a@b.com" true 1000).1.ip_attempts) "5.6.7.8"
      = lookupS ({ ip_attempts := [("1.2.3.4", { locked_until := some 2000 })] } : BruteForceProtection).ip_attempts "5.6.7.8" ∧
    ((({ ip_attempts := [("1.2.3.4", { locked_until := some 2000 })] } : BruteForceProtection).record_attempt "1.2.3.4" "a@b.com" true 1000).1.is_ip_locked "1.2.3.4" 1500).2
      = (true, some (2000 - 1500)) := by
  refine ⟨?_, ?_⟩
  · exact (c9_success_frame { ip_attempts := [("1.2.3.4", { locked_until := some 2000 })] } "1.2.3.4" "a@b.com" 1000).2.2.2.2.1 "5.6.7.8" (by decide)
  · exact (c9_success_frame { ip_attempts := [("1.2.3.4", { locked_until := some 2000 })] } "1.2.3.4" "a@b.com" 1000).2.2.2.2.2.2 2000 1500 (by decide) (by decide) (by decide)
